import Mathlib

/-!
Verification development for the slyft-cli repository (Go).

The file shallowly embeds the parts of the source that the specification's
claims are about:

* the JSON response decoding pipeline (`respCodeToErrorMsg`,
  `extractAssetFromResponse`, `extractAssetsFromBody`, `extractAssetFromBody`
  from duplicated.go / assets.go),
* the interactive selection logic (`chooseAsset` from assets.go and
  `chooseJob` from the jobs file),
* the authenticated transport wrapper (`Do` from the http wrapper file),
* the job polling loop (`waitForJobCompletion`, `buildProject`,
  `validateProject`, `Job.EndPoint` from the jobs file).

Go machine integers in this code are ordinary counters and HTTP status codes,
far from overflow, and are embedded as `Int` (where Go's signedness matters:
`count`, `wait`, user `choice`) or as plain values.  I/O effects (table
rendering, log output, sleeping) are not modelled; user input and the network
are passed in as explicit parameters.  A Go runtime panic (index out of range,
nil-pointer dereference) is modelled as an explicit `panicked` outcome.
-/

namespace Slyft

/-- JSON values as decoded by Go's encoding/json for the payloads this client
handles.  Numbers in the records at hand are integers, so `num` carries an
`Int`. -/
inductive Json where
  | null
  | bool (b : Bool)
  | num (n : Int)
  | str (s : String)
  | arr (elems : List Json)
  | obj (fields : List (String × Json))

/-- Asset record, mirroring the Go struct `Asset` in assets.go.  The two
`time.Time` fields are kept as their RFC3339 wire strings; validation of the
time format happens inside Go's stdlib and is outside the embedded code.
Missing JSON fields keep Go's zero values, which are the defaults here. -/
structure Asset where
  ID : Int := 0
  Name : String := ""
  ProjectId : Int := 0
  ProjectName : String := ""
  Origin : String := ""
  CreatedAt : String := ""
  UpdatedAt : String := ""
deriving DecidableEq, Repr

/-- Applies one JSON object field to an `Asset` under construction, following
encoding/json: fields are matched by their struct tag, a `null` value leaves
the field untouched, a value of the wrong type is an unmarshal error (`none`),
and unknown keys are ignored.  (The stdlib's case-insensitive fallback match
is not exercised by this API and is not modelled.) -/
def setAssetField (a : Asset) : String × Json → Option Asset
  | ("id", Json.num n) => some { a with ID := n }
  | ("id", Json.null) => some a
  | ("id", _) => none
  | ("name", Json.str s) => some { a with Name := s }
  | ("name", Json.null) => some a
  | ("name", _) => none
  | ("project_id", Json.num n) => some { a with ProjectId := n }
  | ("project_id", Json.null) => some a
  | ("project_id", _) => none
  | ("project_name", Json.str s) => some { a with ProjectName := s }
  | ("project_name", Json.null) => some a
  | ("project_name", _) => none
  | ("origin", Json.str s) => some { a with Origin := s }
  | ("origin", Json.null) => some a
  | ("origin", _) => none
  | ("created_at", Json.str s) => some { a with CreatedAt := s }
  | ("created_at", Json.null) => some a
  | ("created_at", _) => none
  | ("updated_at", Json.str s) => some { a with UpdatedAt := s }
  | ("updated_at", Json.null) => some a
  | ("updated_at", _) => none
  | (_, _) => some a

/-- Unmarshals a single JSON value into an `Asset` (Go: `json.Unmarshal` into
a struct): only an object succeeds, its fields applied left to right. -/
def decodeAsset (j : Json) : Option Asset :=
  match j with
  | Json.obj fields => fields.foldlM setAssetField {}
  | _ => none

/-- Unmarshals each element of a JSON array in order (Go: `json.Unmarshal`
into `[]Asset`, which decodes the array elements sequentially). -/
def decodeAssetList : List Json → Option (List Asset)
  | [] => some []
  | j :: rest =>
    match decodeAsset j, decodeAssetList rest with
    | some a, some as => some (a :: as)
    | _, _ => none

/-- Error classification for the client, mirroring the strings the Go code
builds: `unauthorized` is the 401 message, `unexpectedStatus` carries the got
and expected codes of the generic mismatch message, `readFailed` is a body
read error, `decodeFailed` a `json.Unmarshal` error, `wrongCode` the (dead)
second status check's message, and `userMsg` an `errors.New` string. -/
inductive SlyftError where
  | unauthorized
  | unexpectedStatus (got expected : Int)
  | readFailed
  | decodeFailed
  | wrongCode (got expected : Int)
  | userMsg (s : String)
deriving DecidableEq, Repr

/-- Mirrors `respCodeToErrorMsg` in duplicated.go: a 401 maps to the
unauthorized message, any other mismatching code to the unexpected-return-code
message carrying the got and expected codes. -/
def respCodeToErrorMsg (statusCode expectedCode : Int) : SlyftError :=
  if statusCode = 401 then SlyftError.unauthorized
  else SlyftError.unexpectedStatus statusCode expectedCode

/-- An HTTP response as the decoding pipeline sees it: the status code, and
the outcome of reading the body (`Except.error` when `ioutil.ReadAll` fails;
otherwise `some j` when the bytes parse as JSON `j`, `none` when they are not
valid JSON). -/
structure HttpResponse where
  statusCode : Int
  bodyRead : Except Unit (Option Json)

/-- Mirrors `extractAssetsFromBody` in assets.go: unmarshal the body into
`[]Asset` initialised to an empty slice.  A JSON `null` leaves the empty
slice in place (Go behaviour); a non-array is an unmarshal error. -/
def extractAssetsFromBody (body : Option Json) : Except SlyftError (List Asset) :=
  match body with
  | none => Except.error SlyftError.decodeFailed
  | some (Json.arr js) =>
    match decodeAssetList js with
    | some as => Except.ok as
    | none => Except.error SlyftError.decodeFailed
  | some Json.null => Except.ok []
  | some _ => Except.error SlyftError.decodeFailed

/-- Mirrors `extractAssetFromBody` in assets.go: unmarshal the body into a
single `Asset` and wrap it as a one-element slice.  (A JSON `null` body would
nil the double pointer and the subsequent dereference would panic; no claim
exercises that body, and it cannot yield a record, so it falls under the
error case here.) -/
def extractAssetFromBody (body : Option Json) : Except SlyftError (List Asset) :=
  match body with
  | none => Except.error SlyftError.decodeFailed
  | some j =>
    match decodeAsset j with
    | some a => Except.ok [a]
    | none => Except.error SlyftError.decodeFailed

/-- Mirrors `extractAssetFromResponse` in duplicated.go: a status mismatch is
classified by `respCodeToErrorMsg` before the body is touched; then the body
is read (a read failure propagates); the repeated status check from the
source is kept (it is dead, the first check already returned); finally the
body is unmarshalled as a list or as a single record. -/
def extractAssetFromResponse (resp : HttpResponse) (expectedCode : Int)
    (listExpected : Bool) : Except SlyftError (List Asset) :=
  if resp.statusCode ≠ expectedCode then
    Except.error (respCodeToErrorMsg resp.statusCode expectedCode)
  else
    match resp.bodyRead with
    | Except.error _ => Except.error SlyftError.readFailed
    | Except.ok body =>
      if resp.statusCode ≠ expectedCode then
        Except.error (SlyftError.wrongCode resp.statusCode expectedCode)
      else if listExpected then extractAssetsFromBody body
      else extractAssetFromBody body

/-- Sample asset payload used to exercise the decoding pipeline. -/
def assetJsonA : Json :=
  Json.obj [("id", Json.num 1), ("name", Json.str "model.json"),
    ("project_id", Json.num 3), ("origin", Json.str "upload")]

/-- Record decoded from `assetJsonA`. -/
def assetA : Asset := { ID := 1, Name := "model.json", ProjectId := 3, Origin := "upload" }

/-- Second sample asset payload. -/
def assetJsonB : Json :=
  Json.obj [("id", Json.num 2), ("name", Json.str "schema.yml"),
    ("project_id", Json.num 3), ("project_name", Json.str "demo")]

/-- Record decoded from `assetJsonB`. -/
def assetB : Asset := { ID := 2, Name := "schema.yml", ProjectId := 3, ProjectName := "demo" }

/-- Outcome of the interactive choose functions: an `errors.New` style error,
the `nil, nil` informational return, a chosen record, or a runtime panic
(index out of range). -/
inductive ChooseResult (α : Type) where
  | err (msg : String)
  | noChoice
  | chosen (a : α)
  | panicked
deriving DecidableEq, Repr

/-- Common tail of `chooseAsset` and `chooseJob` after the (narrowed) record
list is displayed: a singleton is returned directly; with prompting disabled
the result is `nil, nil`; otherwise the user's integer is read (`userInput`,
an error when `ReadUserIntInput` fails).  The source only rejects
`choice > len(records)`; the record is then taken at `records[choice-1]`, so
`choice < 1` indexes out of range and panics.  The `Bool` of the pair records
whether the user was prompted. -/
def selectFrom {α : Type} (records : List α) (askUser : Bool)
    (userInput : Except String Int) : ChooseResult α × Bool :=
  if h : records.length = 1 then
    (ChooseResult.chosen (records.get ⟨0, by omega⟩), false)
  else if !askUser then (ChooseResult.noChoice, false)
  else
    match userInput with
    | Except.error e => (ChooseResult.err e, true)
    | Except.ok choice =>
      if (records.length : Int) < choice then
        (ChooseResult.err "Plese choose a number from the first column", true)
      else if choice < 1 then (ChooseResult.panicked, true)
      else
        match records.get? (choice - 1).toNat with
        | some a => (ChooseResult.chosen a, true)
        | none => (ChooseResult.panicked, true)

/-- Mirrors the selection logic of `chooseAsset` in assets.go, taking the
fetched asset list as input (the leading `Do` GET and
`extractAssetFromResponse` steps merely propagate their errors and are the
caller's concern).  The emptiness check precedes the tail narrowing; a
nonzero `count` narrows to `assets[len(assets)-count:]`, whose low bound must
lie in `[0, len(assets)]` or the slice expression panics. -/
def chooseAsset (assets : List Asset) (askUser : Bool) (count : Int)
    (userInput : Except String Int) : ChooseResult Asset × Bool :=
  if assets.length = 0 then (ChooseResult.err "No asset. Sorry", false)
  else if count ≠ 0 ∧ ((assets.length : Int) - count < 0 ∨
      (assets.length : Int) < (assets.length : Int) - count) then
    (ChooseResult.panicked, false)
  else
    let narrowed :=
      if count ≠ 0 then assets.drop ((assets.length : Int) - count).toNat else assets
    selectFrom narrowed askUser userInput

/-- Results payload nested in a job, mirroring the Go struct `JobResults`. -/
structure JobResults where
  ResultMessage : String := ""
  ResultStatus : Int := 0
  ResultAssets : List String := []
  ResultDetails : List String := []
deriving DecidableEq, Repr

/-- Job record, mirroring the Go struct `Job`; `time.Time` fields are kept as
their wire strings as for `Asset`. -/
structure Job where
  ID : Int := 0
  Kind : String := ""
  Status : String := ""
  Results : JobResults := {}
  ProjectId : Int := 0
  ProjectName : String := ""
  CreatedAt : String := ""
  UpdatedAt : String := ""
deriving DecidableEq, Repr

/-- Mirrors `Job.EndPoint`: the job's own sub-resource path. -/
def Job.EndPoint (job : Job) : String :=
  "/v1/projects/" ++ toString job.ProjectId ++ "/jobs/" ++ toString job.ID

/-- Mirrors the selection logic of `chooseJob` in the jobs file (same shape
as `chooseAsset` but with no tail narrowing), taking the fetched job list as
input. -/
def chooseJob (jobs : List Job) (askUser : Bool)
    (userInput : Except String Int) : ChooseResult Job × Bool :=
  if jobs.length = 0 then (ChooseResult.err "No job. Sorry", false)
  else selectFrom jobs askUser userInput

/-- Credential triple returned by the external credential store
(`readAuthFromConfig`). -/
structure SlyftAuth where
  AccessToken : String
  Client : String
  Uid : String
deriving DecidableEq, Repr

/-- Mirrors `addAuthToHeader`: appends the three auth headers. -/
def addAuthToHeader (hdr : List (String × String)) (s : SlyftAuth) :
    List (String × String) :=
  hdr ++ [("access-token", s.AccessToken), ("client", s.Client), ("uid", s.Uid)]

/-- Observable outcome of the `Do` wrapper: request construction failed (the
call is reported and aborted), the credential read failed (`warned` records
the printed please-log-in warning; the call is aborted with the error), or
the request was sent with the given headers (`warned` is the warning printed
when the credentials fail the validity check). -/
inductive DoResult where
  | requestError
  | authReadError (warned : Bool)
  | sent (warned : Bool) (headers : List (String × String))
deriving DecidableEq, Repr

/-- Mirrors `Do` in the http wrapper file.  `requestOk` is whether
`http.NewRequest` succeeded; `auth?` is the outcome of the external
`readAuthFromConfig` (`none` when it errors); `goodForLogin` is the external
`SlyftAuth.GoodForLogin` validity check.  A failed credential read prints the
warning and returns the error — the request is never sent.  An auth triple
failing the validity check prints the same warning but the request is still
sent, with the three auth headers and the content type attached. -/
def Do (requestOk : Bool) (auth? : Option SlyftAuth)
    (goodForLogin : SlyftAuth → Bool) : DoResult :=
  if !requestOk then DoResult.requestError
  else
    match auth? with
    | none => DoResult.authReadError true
    | some auth =>
      DoResult.sent (!goodForLogin auth)
        (addAuthToHeader [] auth ++
          [("Content-Type", "application/json; charset=utf-8")])

/-- Whether a `Do` outcome actually issued the HTTP call. -/
def DoResult.isSent : DoResult → Bool
  | DoResult.sent _ _ => true
  | _ => false

/-- Combined outcome of one polling GET (`Do` on the job endpoint followed by
`extractJobFromResponse` with single-record decode): a transport error from
`Do`, a decode/extract error, or the fetched job snapshot. -/
inductive PollResult where
  | transportErr
  | decodeErr
  | fetched (job : Job)
deriving DecidableEq, Repr

/-- Whether a poll outcome fetched a job whose status is the terminal
success marker. -/
def PollResult.isProcessed : PollResult → Bool
  | PollResult.fetched job => job.Status = "processed"
  | _ => false

/-- Result of `waitForJobCompletion`: the Go `true` (job displayed,
completed), the Go `false` (not completed: timeout, or a transport error
abort), or a runtime panic (nil job dereference). -/
inductive WaitOutcome where
  | success
  | notCompleted
  | panicked
deriving DecidableEq, Repr

/-- Mirrors the `for wait > 0` loop of `waitForJobCompletion`, polling the
endpoint `ep`; `f ep k` is the outcome of the `k`-th GET (the network and
decode pipeline supplied as an oracle).  Each iteration first decrements the
budget by the 5-second interval and sleeps, then issues the GET: a transport
error returns `false` immediately; a decode error or a non-`processed`
status falls through to the next iteration; a `processed` status displays
the job and returns `true`.  The `Nat` of the pair counts the GETs issued. -/
def waitLoop (ep : String) (f : String → Nat → PollResult) (k : Nat)
    (wait : Int) : WaitOutcome × Nat :=
  if 0 < wait then
    match f ep k with
    | PollResult.transportErr => (WaitOutcome.notCompleted, 1)
    | PollResult.decodeErr =>
      let r := waitLoop ep f (k + 1) (wait - 5)
      (r.1, r.2 + 1)
    | PollResult.fetched job =>
      if job.Status = "processed" then (WaitOutcome.success, 1)
      else
        let r := waitLoop ep f (k + 1) (wait - 5)
        (r.1, r.2 + 1)
  else (WaitOutcome.notCompleted, 0)
termination_by wait.toNat
decreasing_by all_goals (simp_wf; omega)

/-- Mirrors `waitForJobCompletion(job, wait)`.  A nil `job` pointer is
`none`: the loop body dereferences it at `job.EndPoint()` before issuing the
first GET, and the timeout message dereferences `job.ID` when the loop body
never runs, so a nil job panics with no GET issued either way. -/
def waitForJobCompletion (job? : Option Job)
    (f : String → Nat → PollResult) (wait : Int) : WaitOutcome × Nat :=
  match job? with
  | none => (WaitOutcome.panicked, 0)
  | some job => waitLoop job.EndPoint f 0 wait

/-- Mirrors the `cmd.Action` of `buildProject`: `postResult` is what
`postNewJob("build", name)` returned (nil on any creation failure); `waitPtr`
is the `--wait` option pointer, checked against nil before polling (mow.cli's
`IntOpt` never yields nil, so the guard always passes and the action always
calls `waitForJobCompletion` on the possibly-nil job). -/
def buildProject (postResult : Option Job) (waitPtr : Option Int)
    (f : String → Nat → PollResult) : Option (WaitOutcome × Nat) :=
  match waitPtr with
  | none => none
  | some w => some (waitForJobCompletion postResult f w)

/-- Mirrors the `cmd.Action` of `validateProject`, identical to
`buildProject` except that the job posted is a validate job. -/
def validateProject (postResult : Option Job) (waitPtr : Option Int)
    (f : String → Nat → PollResult) : Option (WaitOutcome × Nat) :=
  match waitPtr with
  | none => none
  | some w => some (waitForJobCompletion postResult f w)

/-- Sample job still in the queue. -/
def jobQueued : Job := { ID := 7, Kind := "build", Status := "queued", ProjectId := 3 }

/-- Sample job in the terminal success state. -/
def jobProcessed : Job := { ID := 7, Kind := "build", Status := "processed", ProjectId := 3 }

/-- Poll trace whose first two GETs see the job still queued and whose third
(and every later) GET sees it processed. -/
def pollsThird : String → Nat → PollResult
  | _, 0 => PollResult.fetched jobQueued
  | _, 1 => PollResult.fetched jobQueued
  | _, _ => PollResult.fetched jobProcessed

/-- Poll trace whose first GET fails at the transport level and whose second
would already see the job processed. -/
def pollsFailFirst : String → Nat → PollResult
  | _, 0 => PollResult.transportErr
  | _, _ => PollResult.fetched jobProcessed

/-- Poll trace where every GET sees the job still queued. -/
def pollsNever : String → Nat → PollResult := fun _ _ => PollResult.fetched jobQueued

theorem decodeAssetList_length {js : List Json} {as : List Asset}
    (h : decodeAssetList js = some as) : as.length = js.length := by
  induction js generalizing as with
  | nil => simp [decodeAssetList] at h; simp [← h]
  | cons j rest ih =>
    simp only [decodeAssetList] at h
    rcases hj : decodeAsset j with _ | a <;> rw [hj] at h
    · exact absurd h (by simp)
    · rcases hrest : decodeAssetList rest with _ | as' <;> rw [hrest] at h
      · exact absurd h (by simp)
      · cases h
        simp [List.length_cons, ih hrest]

theorem decodeAssetList_get {js : List Json} {as : List Asset}
    (h : decodeAssetList js = some as) (i : Nat) (hi : i < js.length)
    (hi' : i < as.length) :
    decodeAsset (js.get ⟨i, hi⟩) = some (as.get ⟨i, hi'⟩) := by
  induction js generalizing as i with
  | nil => exact absurd hi (by simp)
  | cons j rest ih =>
    simp only [decodeAssetList] at h
    rcases hj : decodeAsset j with _ | a <;> rw [hj] at h
    · exact absurd h (by simp)
    · rcases hrest : decodeAssetList rest with _ | as' <;> rw [hrest] at h
      · exact absurd h (by simp)
      · cases h
        cases i with
        | zero => simpa using hj
        | succ m =>
          exact ih hrest m (by simpa using hi) (by simpa using hi')

/-- C6: for every response whose status differs from the expected status, the
decoder produces the unauthorized error exactly when the status is 401 and
otherwise the unexpected-status error carrying the got and expected codes;
the result does not depend on the body (quantified over every `bodyRead`), so
the body is never parsed on this path. -/
theorem extractAssetFromResponse_statusMismatch
    (statusCode expectedCode : Int) (bodyRead : Except Unit (Option Json))
    (listExpected : Bool) (h : statusCode ≠ expectedCode) :
    extractAssetFromResponse ⟨statusCode, bodyRead⟩ expectedCode listExpected =
      Except.error (if statusCode = 401 then SlyftError.unauthorized
        else SlyftError.unexpectedStatus statusCode expectedCode) := by
  simp only [extractAssetFromResponse, respCodeToErrorMsg]
  rw [if_pos h]

/-- Witness for C6 at concrete mismatching responses: a 401 yields the
unauthorized error, a 404 (expecting 200) the unexpected-status error. -/
theorem extractAssetFromResponse_statusMismatch_witness :
    extractAssetFromResponse ⟨401, Except.ok (some (Json.arr []))⟩ 200 true =
      Except.error SlyftError.unauthorized ∧
    extractAssetFromResponse ⟨404, Except.ok none⟩ 200 false =
      Except.error (SlyftError.unexpectedStatus 404 200) := by
  constructor
  · simpa using extractAssetFromResponse_statusMismatch 401 200
      (Except.ok (some (Json.arr []))) true (by decide)
  · simpa using extractAssetFromResponse_statusMismatch 404 200
      (Except.ok none) false (by decide)

/-- C7: for every response whose status equals the expected status, with the
collection flag set, a JSON array whose elements all decode yields exactly
one domain record per element, in array order (same length, `i`-th record
decoded from the `i`-th element); with the flag unset, a JSON value decoding
as a single record yields exactly that record as a one-element collection. -/
theorem extractAssetFromResponse_decodes (expectedCode : Int) :
    (∀ (js : List Json) (as : List Asset), decodeAssetList js = some as →
      extractAssetFromResponse ⟨expectedCode, Except.ok (some (Json.arr js))⟩
          expectedCode true = Except.ok as ∧
        as.length = js.length ∧
        ∀ (i : Nat) (hi : i < js.length) (hi2 : i < as.length),
          decodeAsset (js.get ⟨i, hi⟩) = some (as.get ⟨i, hi2⟩)) ∧
    (∀ (j : Json) (a : Asset), decodeAsset j = some a →
      extractAssetFromResponse ⟨expectedCode, Except.ok (some j)⟩
        expectedCode false = Except.ok [a]) := by
  constructor
  · intro js as h
    refine ⟨?_, decodeAssetList_length h, decodeAssetList_get h⟩
    simp [extractAssetFromResponse, extractAssetsFromBody, h]
  · intro j a h
    simp [extractAssetFromResponse, extractAssetFromBody, h]

/-- Witness for C7: a two-element array decodes to its two records in order,
and a single object decodes to a one-element collection. -/
theorem extractAssetFromResponse_decodes_witness :
    extractAssetFromResponse
        ⟨200, Except.ok (some (Json.arr [assetJsonA, assetJsonB]))⟩ 200 true =
      Except.ok [assetA, assetB] ∧
    extractAssetFromResponse ⟨201, Except.ok (some assetJsonA)⟩ 201 false =
      Except.ok [assetA] := by
  constructor
  · exact ((extractAssetFromResponse_decodes 200).1 [assetJsonA, assetJsonB]
      [assetA, assetB] (by decide)).1
  · exact (extractAssetFromResponse_decodes 201).2 assetJsonA assetA (by decide)

theorem waitLoop_neg (ep : String) (f : String → Nat → PollResult) (k : Nat)
    {wait : Int} (h : ¬ 0 < wait) :
    waitLoop ep f k wait = (WaitOutcome.notCompleted, 0) := by
  rw [waitLoop, if_neg h]

theorem waitLoop_transport {ep : String} {f : String → Nat → PollResult} {k : Nat}
    {wait : Int} (h : 0 < wait) (hf : f ep k = PollResult.transportErr) :
    waitLoop ep f k wait = (WaitOutcome.notCompleted, 1) := by
  rw [waitLoop, if_pos h, hf]

theorem waitLoop_decode {ep : String} {f : String → Nat → PollResult} {k : Nat}
    {wait : Int} (h : 0 < wait) (hf : f ep k = PollResult.decodeErr) :
    waitLoop ep f k wait =
      ((waitLoop ep f (k + 1) (wait - 5)).1, (waitLoop ep f (k + 1) (wait - 5)).2 + 1) := by
  rw [waitLoop, if_pos h, hf]

theorem waitLoop_fetchCont {ep : String} {f : String → Nat → PollResult} {k : Nat}
    {wait : Int} {jb : Job} (h : 0 < wait) (hf : f ep k = PollResult.fetched jb)
    (hs : jb.Status ≠ "processed") :
    waitLoop ep f k wait =
      ((waitLoop ep f (k + 1) (wait - 5)).1, (waitLoop ep f (k + 1) (wait - 5)).2 + 1) := by
  rw [waitLoop, if_pos h, hf]
  dsimp only
  rw [if_neg hs]

theorem waitLoop_processedStop {ep : String} {f : String → Nat → PollResult} {k : Nat}
    {wait : Int} {jb : Job} (h : 0 < wait) (hf : f ep k = PollResult.fetched jb)
    (hs : jb.Status = "processed") :
    waitLoop ep f k wait = (WaitOutcome.success, 1) := by
  rw [waitLoop, if_pos h, hf]
  dsimp only
  rw [if_pos hs]

theorem waitLoop_success_iff (ep : String) (f : String → Nat → PollResult) :
    ∀ (wait : Int) (k : Nat),
      (waitLoop ep f k wait).1 = WaitOutcome.success ↔
        ∃ i : Nat, 5 * (i : Int) < wait ∧ (f ep (k + i)).isProcessed = true ∧
          ∀ m : Nat, m < i → f ep (k + m) ≠ PollResult.transportErr := by
  intro wait k
  generalize hn : wait.toNat = n
  induction n using Nat.strong_induction_on generalizing wait k with
  | _ n ih =>
    rw [waitLoop]
    by_cases hw : 0 < wait
    · rw [if_pos hw]
      rcases hfk : f ep k with _ | _ | job
      · simp only
        constructor
        · intro h; exact absurd h (by decide)
        · rintro ⟨i, h5, hproc, hall⟩
          cases i with
          | zero => rw [Nat.add_zero, hfk] at hproc; exact absurd hproc (by decide)
          | succ m =>
            exact absurd hfk (by simpa using hall 0 (Nat.succ_pos m))
      · simp only
        rw [ih (wait - 5).toNat (by omega) (wait - 5) (k + 1) rfl]
        constructor
        · rintro ⟨i, h5, hproc, hall⟩
          refine ⟨i + 1, by push_cast; omega, ?_, ?_⟩
          · have hshift : k + (i + 1) = k + 1 + i := by omega
            rw [hshift]; exact hproc
          · intro m hm
            cases m with
            | zero => rw [Nat.add_zero, hfk]; decide
            | succ m' =>
              have hshift : k + (m' + 1) = k + 1 + m' := by omega
              rw [hshift]; exact hall m' (by omega)
        · rintro ⟨i, h5, hproc, hall⟩
          cases i with
          | zero =>
            rw [Nat.add_zero, hfk] at hproc; exact absurd hproc (by decide)
          | succ m =>
            refine ⟨m, by push_cast at h5 ⊢; omega, ?_, ?_⟩
            · have hshift : k + 1 + m = k + (m + 1) := by omega
              rw [hshift]; exact hproc
            · intro m' hm'
              have hshift : k + 1 + m' = k + (m' + 1) := by omega
              rw [hshift]; exact hall (m' + 1) (by omega)
      · by_cases hs : job.Status = "processed"
        · simp only [hs, if_pos rfl]
          constructor
          · intro _
            exact ⟨0, by push_cast; omega,
              by simp [hfk, PollResult.isProcessed, hs], by omega⟩
          · intro _; rfl
        · simp only [if_neg hs]
          rw [ih (wait - 5).toNat (by omega) (wait - 5) (k + 1) rfl]
          constructor
          · rintro ⟨i, h5, hproc, hall⟩
            refine ⟨i + 1, by push_cast; omega, ?_, ?_⟩
            · have hshift : k + (i + 1) = k + 1 + i := by omega
              rw [hshift]; exact hproc
            · intro m hm
              cases m with
              | zero => rw [Nat.add_zero, hfk]; simp
              | succ m' =>
                have hshift : k + (m' + 1) = k + 1 + m' := by omega
                rw [hshift]; exact hall m' (by omega)
          · rintro ⟨i, h5, hproc, hall⟩
            cases i with
            | zero =>
              rw [Nat.add_zero, hfk] at hproc
              simp [PollResult.isProcessed, hs] at hproc
            | succ m =>
              refine ⟨m, by push_cast at h5 ⊢; omega, ?_, ?_⟩
              · have hshift : k + 1 + m = k + (m + 1) := by omega
                rw [hshift]; exact hproc
              · intro m' hm'
                have hshift : k + 1 + m' = k + (m' + 1) := by omega
                rw [hshift]; exact hall (m' + 1) (by omega)
    · rw [if_neg hw]
      constructor
      · intro h; exact absurd h (by decide)
      · rintro ⟨i, h5, _, _⟩
        have hnn : (0 : Int) ≤ 5 * (i : Int) := by positivity
        omega

/-- C1 counterexample: with a 10-second budget and a poll trace whose first
GET fails at the transport level and whose second would already see the job
processed, the loop returns the not-completed result after a single poll —
it aborts; continuing to the next iteration as the claim states (the
displayed continuation value) would instead have returned success after the
second poll. -/
theorem waitForJobCompletion_transportAbort_cex :
    waitForJobCompletion (some jobQueued) pollsFailFirst 10 =
      (WaitOutcome.notCompleted, 1) ∧
    ((waitLoop jobQueued.EndPoint pollsFailFirst (0 + 1) (10 - 5)).1,
      (waitLoop jobQueued.EndPoint pollsFailFirst (0 + 1) (10 - 5)).2 + 1) =
      (WaitOutcome.success, 2) := by
  constructor
  · simp only [waitForJobCompletion]
    exact waitLoop_transport (by norm_num) rfl
  · rw [waitLoop_processedStop (by norm_num)
      (show pollsFailFirst jobQueued.EndPoint (0 + 1) =
        PollResult.fetched jobProcessed from rfl) rfl]

/-- C1 (amended): a decode failure of the status GET is treated as a
transient miss — the loop continues to the next iteration, the only visible
effect being one fewer remaining interval; a transport failure of the GET,
however, aborts the loop immediately, returning the not-completed result
after that poll.  Neither failure is surfaced to the caller as an error. -/
theorem waitLoop_pollFailure_behaviour (ep : String)
    (f : String → Nat → PollResult) (k : Nat) (wait : Int) (h : 0 < wait) :
    (f ep k = PollResult.decodeErr →
      waitLoop ep f k wait =
        ((waitLoop ep f (k + 1) (wait - 5)).1,
          (waitLoop ep f (k + 1) (wait - 5)).2 + 1)) ∧
    (f ep k = PollResult.transportErr →
      waitLoop ep f k wait = (WaitOutcome.notCompleted, 1)) :=
  ⟨fun hf => waitLoop_decode h hf, fun hf => waitLoop_transport h hf⟩

/-- Witness for the amended C1: at a concrete trace failing at the transport
level, the loop stops after one poll with the not-completed result. -/
theorem waitLoop_pollFailure_behaviour_witness :
    waitLoop "/v1/projects/3/jobs/7" pollsFailFirst 0 30 =
      (WaitOutcome.notCompleted, 1) :=
  (waitLoop_pollFailure_behaviour "/v1/projects/3/jobs/7" pollsFailFirst 0 30
    (by norm_num)).2 rfl

/-- C2: the polling loop returns success exactly when some poll it performs
within the wait budget (the i-th GET happens when `5 * i < wait` and no
earlier GET failed at the transport level, which would have ended the loop)
fetches the job with status `processed`; concretely, a job processed on the
third poll under a 30-second budget yields success after exactly 3 polls. -/
theorem waitForJobCompletion_success_iff (job : Job)
    (f : String → Nat → PollResult) (wait : Int) :
    ((waitForJobCompletion (some job) f wait).1 = WaitOutcome.success ↔
      ∃ i : Nat, 5 * (i : Int) < wait ∧ (f job.EndPoint i).isProcessed = true ∧
        ∀ m : Nat, m < i → f job.EndPoint m ≠ PollResult.transportErr) ∧
    waitForJobCompletion (some jobQueued) pollsThird 30 = (WaitOutcome.success, 3) := by
  constructor
  · simpa using waitLoop_success_iff job.EndPoint f wait 0
  · have e2 : waitLoop jobQueued.EndPoint pollsThird 2 (20 : Int) =
        (WaitOutcome.success, 1) :=
      waitLoop_processedStop (by norm_num)
        (show _ = PollResult.fetched jobProcessed from rfl) rfl
    have e1 : waitLoop jobQueued.EndPoint pollsThird 1 (25 : Int) =
        (WaitOutcome.success, 2) := by
      rw [waitLoop_fetchCont (by norm_num)
        (show _ = PollResult.fetched jobQueued from rfl) (by decide)]
      norm_num [e2]
    have e0 : waitLoop jobQueued.EndPoint pollsThird 0 (30 : Int) =
        (WaitOutcome.success, 3) := by
      rw [waitLoop_fetchCont (by norm_num)
        (show _ = PollResult.fetched jobQueued from rfl) (by decide)]
      norm_num [e1]
    simpa [waitForJobCompletion] using e0

/-- Witness for C2: the concrete processed-on-the-third-poll run, success
after exactly 3 polls. -/
theorem waitForJobCompletion_success_iff_witness :
    waitForJobCompletion (some jobQueued) pollsThird 30 = (WaitOutcome.success, 3) :=
  (waitForJobCompletion_success_iff jobQueued pollsThird 30).2

/-- C3: with a 10-second budget and a job whose fetched status never equals
`processed`, the loop performs exactly 2 polls and then returns the
not-completed signal — the Go `false` return value, not an error. -/
theorem waitForJobCompletion_budget10_timeout (job : Job)
    (f : String → Nat → PollResult)
    (h : ∀ i : Nat, ∃ jb : Job,
      f job.EndPoint i = PollResult.fetched jb ∧ jb.Status ≠ "processed") :
    waitForJobCompletion (some job) f 10 = (WaitOutcome.notCompleted, 2) := by
  obtain ⟨j0, h0, hs0⟩ := h 0
  obtain ⟨j1, h1, hs1⟩ := h 1
  have e2 : waitLoop job.EndPoint f 2 (0 : Int) = (WaitOutcome.notCompleted, 0) :=
    waitLoop_neg _ _ _ (by norm_num)
  have e1 : waitLoop job.EndPoint f 1 (5 : Int) = (WaitOutcome.notCompleted, 1) := by
    rw [waitLoop_fetchCont (by norm_num) h1 hs1]
    norm_num [e2]
  have e0 : waitLoop job.EndPoint f 0 (10 : Int) = (WaitOutcome.notCompleted, 2) := by
    rw [waitLoop_fetchCont (by norm_num) h0 hs0]
    norm_num [e1]
  simpa [waitForJobCompletion] using e0

/-- Witness for C3: the always-queued trace under a 10-second budget. -/
theorem waitForJobCompletion_budget10_timeout_witness :
    waitForJobCompletion (some jobQueued) pollsNever 10 =
      (WaitOutcome.notCompleted, 2) :=
  waitForJobCompletion_budget10_timeout jobQueued pollsNever
    (fun _ => ⟨jobQueued, rfl, by decide⟩)

/-- C4 counterexample: with the persisted credentials absent (the credential
read fails), the request is not sent — `Do` aborts with the read error
instead of proceeding for the server to reject. -/
theorem Do_absentCreds_cex :
    (Do true none (fun _ => true)).isSent = false ∧
    Do true none (fun _ => true) = DoResult.authReadError true := by
  constructor <;> rfl

/-- C4 (amended): when the persisted credentials are read but fail the
validity check, the call still proceeds (for the server to reject with 401)
with the local warning surfaced first; when the credential read fails
(credentials absent), the warning is surfaced but the call aborts with the
read error and no request is sent. -/
theorem Do_auth_behaviour (auth : SlyftAuth) (goodForLogin : SlyftAuth → Bool) :
    Do true (some auth) goodForLogin =
      DoResult.sent (!goodForLogin auth)
        [("access-token", auth.AccessToken), ("client", auth.Client),
          ("uid", auth.Uid),
          ("Content-Type", "application/json; charset=utf-8")] ∧
    Do true none goodForLogin = DoResult.authReadError true := by
  constructor <;> rfl

/-- C5: at the failing input — two displayed candidates, prompting enabled,
the user entering 0 — both selection functions index the record slice at -1
and panic, instead of returning the out-of-range error the specification
requires; the in-range input 2 returns the second record as specified. -/
theorem choose_lowerBound_unchecked :
    chooseAsset [assetA, assetB] true 0 (Except.ok 0) = (ChooseResult.panicked, true) ∧
    chooseJob [jobQueued, jobProcessed] true (Except.ok 0) =
      (ChooseResult.panicked, true) ∧
    chooseAsset [assetA, assetB] true 0 (Except.ok 2) =
      (ChooseResult.chosen assetB, true) := by
  refine ⟨?_, ?_, ?_⟩ <;> decide

/-- C8: selection on an empty candidate list always fails with the not-found
error, for every prompting flag, tail count and user input (the emptiness
check precedes the narrowing); selection on a singleton list returns its
element without consulting the user (prompted flag `false`), for every
prompting flag and input — for `chooseAsset` under both tail counts (0 and
1) for which narrowing a singleton stays within slice bounds. -/
theorem choose_empty_and_singleton :
    (∀ (askUser : Bool) (count : Int) (input : Except String Int),
      chooseAsset [] askUser count input = (ChooseResult.err "No asset. Sorry", false)) ∧
    (∀ (askUser : Bool) (input : Except String Int),
      chooseJob [] askUser input = (ChooseResult.err "No job. Sorry", false)) ∧
    (∀ (a : Asset) (askUser : Bool) (count : Int) (input : Except String Int),
      count = 0 ∨ count = 1 →
      chooseAsset [a] askUser count input = (ChooseResult.chosen a, false)) ∧
    (∀ (jb : Job) (askUser : Bool) (input : Except String Int),
      chooseJob [jb] askUser input = (ChooseResult.chosen jb, false)) := by
  refine ⟨fun askUser count input => rfl, fun askUser input => rfl, ?_,
    fun jb askUser input => rfl⟩
  rintro a askUser count input (rfl | rfl) <;> rfl

/-- Witness for C8 at concrete inputs: an empty list errors even with
prompting enabled and a tail count, and a singleton is returned unprompted
for tail counts 0 and 1. -/
theorem choose_empty_and_singleton_witness :
    chooseAsset [] true 2 (Except.ok 1) = (ChooseResult.err "No asset. Sorry", false) ∧
    chooseJob [] true (Except.ok 1) = (ChooseResult.err "No job. Sorry", false) ∧
    chooseAsset [assetA] true 0 (Except.ok 5) = (ChooseResult.chosen assetA, false) ∧
    chooseAsset [assetA] true 1 (Except.ok 5) = (ChooseResult.chosen assetA, false) ∧
    chooseJob [jobQueued] true (Except.error "eof") =
      (ChooseResult.chosen jobQueued, false) :=
  ⟨choose_empty_and_singleton.1 true 2 (Except.ok 1),
    choose_empty_and_singleton.2.1 true (Except.ok 1),
    choose_empty_and_singleton.2.2.1 assetA true 0 (Except.ok 5) (Or.inl rfl),
    choose_empty_and_singleton.2.2.1 assetA true 1 (Except.ok 5) (Or.inr rfl),
    choose_empty_and_singleton.2.2.2 jobQueued true (Except.error "eof")⟩

/-- C9: for every non-empty fetched asset list and nonzero tail count that is
negative or exceeds the list length, the narrowing slice
`assets[len(assets)-count:]` is out of range and `chooseAsset` panics instead
of returning an error. -/
theorem chooseAsset_badCount_outOfRange (assets : List Asset) (askUser : Bool)
    (count : Int) (input : Except String Int) (hne : assets ≠ [])
    (hc0 : count ≠ 0) (hc : count < 0 ∨ (assets.length : Int) < count) :
    chooseAsset assets askUser count input = (ChooseResult.panicked, false) := by
  have hlen : ¬ assets.length = 0 := by simpa using hne
  have hcond : count ≠ 0 ∧ ((assets.length : Int) - count < 0 ∨
      (assets.length : Int) < (assets.length : Int) - count) := ⟨hc0, by omega⟩
  simp only [chooseAsset, if_neg hlen, if_pos hcond]

/-- Witness for C9: a one-element list with tail count 2 (and with tail
count -1) panics. -/
theorem chooseAsset_badCount_outOfRange_witness :
    chooseAsset [assetA] true 2 (Except.ok 1) = (ChooseResult.panicked, false) ∧
    chooseAsset [assetA] false (-1) (Except.ok 1) = (ChooseResult.panicked, false) :=
  ⟨chooseAsset_badCount_outOfRange [assetA] true 2 (Except.ok 1) (by decide)
      (by decide) (by norm_num),
    chooseAsset_badCount_outOfRange [assetA] false (-1) (Except.ok 1) (by decide)
      (by decide) (by norm_num)⟩

/-- C10: when job creation failed (`postNewJob` returned nil) and the wait
budget is positive, the build and validate command actions still invoke the
polling loop on the nil job, which dereferences it before the first GET —
a nil-pointer panic with zero polls issued, not a clean abort. -/
theorem buildProject_nilJob (w : Int) (f : String → Nat → PollResult)
    (_hw : 0 < w) :
    buildProject none (some w) f = some (WaitOutcome.panicked, 0) ∧
    validateProject none (some w) f = some (WaitOutcome.panicked, 0) := by
  constructor <;> rfl

/-- Witness for C10: the default 30-second budget with a nil job panics in
both commands. -/
theorem buildProject_nilJob_witness :
    buildProject none (some 30) pollsNever = some (WaitOutcome.panicked, 0) ∧
    validateProject none (some 30) pollsNever = some (WaitOutcome.panicked, 0) :=
  buildProject_nilJob 30 pollsNever (by norm_num)

end Slyft
